import Mathlib

/-!
Shallow embedding of `src/omni_processor.py` (omni-sfm): the panoramic-to-
multiview rig synthesis engine.  Machine floats are modelled by `ℝ`; the
`scipy.spatial.transform.Rotation` calls are modelled by explicit unit
quaternions in the scipy `(x, y, z, w)` component layout; Python exceptions
are modelled by `Except`.
-/

namespace OmniSfm

/-- Degrees to radians, `np.deg2rad`. -/
noncomputable def deg2rad (d : ℝ) : ℝ := d * Real.pi / 180

/-- Source `compute_focal_length(image_size, fov_deg)`:
`image_size / (2 * np.tan(np.deg2rad(fov_deg) / 2))`. -/
noncomputable def compute_focal_length (image_size : ℝ) (fov_deg : ℝ) : ℝ :=
  image_size / (2 * Real.tan (deg2rad fov_deg / 2))

/-- A quaternion in the scipy component order: vector part `x, y, z`, scalar
part `w` (scipy stores and returns `(x, y, z, w)`). -/
structure Quat where
  x : ℝ
  y : ℝ
  z : ℝ
  w : ℝ

/-- Hamilton product `p ⊗ q`, the quaternion of the composed rotation
`p ∘ q` (scipy `Rotation.__mul__`). -/
noncomputable def quatMul (p q : Quat) : Quat :=
  ⟨p.w * q.x + p.x * q.w + p.y * q.z - p.z * q.y,
   p.w * q.y - p.x * q.z + p.y * q.w + p.z * q.x,
   p.w * q.z + p.x * q.y - p.y * q.x + p.z * q.w,
   p.w * q.w - p.x * q.x - p.y * q.y - p.z * q.z⟩

/-- Quaternion conjugate: for a unit quaternion this is the inverse rotation
(scipy `Rotation.inv`). -/
def quatConj (q : Quat) : Quat := ⟨-q.x, -q.y, -q.z, q.w⟩

/-- Squared norm of a quaternion. -/
noncomputable def quatNormSq (q : Quat) : ℝ :=
  q.x * q.x + q.y * q.y + q.z * q.z + q.w * q.w

/-- Elementary rotation about the x axis by `θ` radians, as a quaternion
(scipy elementary quaternion for axis `x`). -/
noncomputable def xRotQuat (θ : ℝ) : Quat :=
  ⟨Real.sin (θ / 2), 0, 0, Real.cos (θ / 2)⟩

/-- Elementary rotation about the y axis by `θ` radians, as a quaternion
(scipy elementary quaternion for axis `y`). -/
noncomputable def yRotQuat (θ : ℝ) : Quat :=
  ⟨0, Real.sin (θ / 2), 0, Real.cos (θ / 2)⟩

/-- Source `R.from_euler("yx", [yaw, pitch], degrees=True)`: extrinsic rotations,
the rotation about `y` by `yaw` applied first, then the rotation about the
fixed `x` axis by `pitch`; the composed quaternion is
`q_x(pitch) ⊗ q_y(yaw)`. -/
noncomputable def fromEulerYX (yaw pitch : ℝ) : Quat :=
  quatMul (xRotQuat (deg2rad pitch)) (yRotQuat (deg2rad yaw))

/-- A 3 × 3 real matrix with explicit entries, used to state what rotation a
quaternion denotes. -/
structure Mat3 where
  m00 : ℝ
  m01 : ℝ
  m02 : ℝ
  m10 : ℝ
  m11 : ℝ
  m12 : ℝ
  m20 : ℝ
  m21 : ℝ
  m22 : ℝ

/-- Matrix product of two `Mat3`. -/
noncomputable def mat3Mul (a b : Mat3) : Mat3 :=
  ⟨a.m00 * b.m00 + a.m01 * b.m10 + a.m02 * b.m20,
   a.m00 * b.m01 + a.m01 * b.m11 + a.m02 * b.m21,
   a.m00 * b.m02 + a.m01 * b.m12 + a.m02 * b.m22,
   a.m10 * b.m00 + a.m11 * b.m10 + a.m12 * b.m20,
   a.m10 * b.m01 + a.m11 * b.m11 + a.m12 * b.m21,
   a.m10 * b.m02 + a.m11 * b.m12 + a.m12 * b.m22,
   a.m20 * b.m00 + a.m21 * b.m10 + a.m22 * b.m20,
   a.m20 * b.m01 + a.m21 * b.m11 + a.m22 * b.m21,
   a.m20 * b.m02 + a.m21 * b.m12 + a.m22 * b.m22⟩

/-- Transpose of a `Mat3`. -/
def mat3Transpose (a : Mat3) : Mat3 :=
  ⟨a.m00, a.m10, a.m20, a.m01, a.m11, a.m21, a.m02, a.m12, a.m22⟩

/-- The identity `Mat3`. -/
noncomputable def mat3Id : Mat3 := ⟨1, 0, 0, 0, 1, 0, 0, 0, 1⟩

/-- The rotation matrix denoted by a quaternion: the matrix of the
conjugation action `v ↦ q v q⁻¹` (for a unit quaternion). -/
noncomputable def quatToM (q : Quat) : Mat3 :=
  ⟨q.w * q.w + q.x * q.x - q.y * q.y - q.z * q.z,
   2 * (q.x * q.y - q.w * q.z),
   2 * (q.x * q.z + q.w * q.y),
   2 * (q.x * q.y + q.w * q.z),
   q.w * q.w - q.x * q.x + q.y * q.y - q.z * q.z,
   2 * (q.y * q.z - q.w * q.x),
   2 * (q.x * q.z - q.w * q.y),
   2 * (q.y * q.z + q.w * q.x),
   q.w * q.w - q.x * q.x - q.y * q.y + q.z * q.z⟩

/-- Modelled from the spec: the standard rotation matrix about the vertical
(y) axis by `θ` radians — the "yaw rotation" of §4.2/§4.4. -/
noncomputable def specYawRot (θ : ℝ) : Mat3 :=
  ⟨Real.cos θ, 0, Real.sin θ,
   0, 1, 0,
   -Real.sin θ, 0, Real.cos θ⟩

/-- Modelled from the spec: the standard rotation matrix about the lateral
(x) axis by `θ` radians — the "pitch rotation" of §4.2/§4.4. -/
noncomputable def specPitchRot (θ : ℝ) : Mat3 :=
  ⟨1, 0, 0,
   0, Real.cos θ, -Real.sin θ,
   0, Real.sin θ, Real.cos θ⟩

/-- Modelled from the spec: a view's world-frame orientation, built as the
yaw rotation applied first and the pitch rotation applied second
(angles in degrees). -/
noncomputable def specWorldRot (yaw pitch : ℝ) : Mat3 :=
  mat3Mul (specPitchRot (deg2rad pitch)) (specYawRot (deg2rad yaw))

theorem mat3_ext {a b : Mat3} (h00 : a.m00 = b.m00) (h01 : a.m01 = b.m01)
    (h02 : a.m02 = b.m02) (h10 : a.m10 = b.m10) (h11 : a.m11 = b.m11)
    (h12 : a.m12 = b.m12) (h20 : a.m20 = b.m20) (h21 : a.m21 = b.m21)
    (h22 : a.m22 = b.m22) : a = b := by
  cases a; cases b; simp_all

theorem quatToM_mul (p q : Quat) :
    quatToM (quatMul p q) = mat3Mul (quatToM p) (quatToM q) := by
  apply mat3_ext <;> simp [quatToM, quatMul, mat3Mul] <;> ring

theorem quatToM_conj (q : Quat) :
    quatToM (quatConj q) = mat3Transpose (quatToM q) := by
  apply mat3_ext <;> simp [quatToM, quatConj, mat3Transpose] <;> try ring

theorem quatNormSq_mul (p q : Quat) :
    quatNormSq (quatMul p q) = quatNormSq p * quatNormSq q := by
  simp [quatNormSq, quatMul]; ring

theorem quatNormSq_conj (q : Quat) : quatNormSq (quatConj q) = quatNormSq q := by
  simp [quatNormSq, quatConj]

theorem quatNormSq_xRotQuat (θ : ℝ) : quatNormSq (xRotQuat θ) = 1 := by
  simp [quatNormSq, xRotQuat]
  nlinarith [Real.sin_sq_add_cos_sq (θ / 2)]

theorem quatNormSq_yRotQuat (θ : ℝ) : quatNormSq (yRotQuat θ) = 1 := by
  simp [quatNormSq, yRotQuat]
  nlinarith [Real.sin_sq_add_cos_sq (θ / 2)]

theorem quatToM_xRotQuat (θ : ℝ) : quatToM (xRotQuat θ) = specPitchRot θ := by
  have h2 : 2 * (θ / 2) = θ := by ring
  have hc : Real.cos θ = Real.cos (θ / 2) ^ 2 - Real.sin (θ / 2) ^ 2 := by
    have h := Real.cos_two_mul' (θ / 2)
    rw [h2] at h; exact h
  have hs : Real.sin θ = 2 * Real.sin (θ / 2) * Real.cos (θ / 2) := by
    have h := Real.sin_two_mul (θ / 2)
    rw [h2] at h; exact h
  have h1 : Real.sin (θ / 2) ^ 2 + Real.cos (θ / 2) ^ 2 = 1 :=
    Real.sin_sq_add_cos_sq (θ / 2)
  apply mat3_ext <;> simp [quatToM, xRotQuat, specPitchRot, hc, hs] <;> nlinarith

theorem quatToM_yRotQuat (θ : ℝ) : quatToM (yRotQuat θ) = specYawRot θ := by
  have h2 : 2 * (θ / 2) = θ := by ring
  have hc : Real.cos θ = Real.cos (θ / 2) ^ 2 - Real.sin (θ / 2) ^ 2 := by
    have h := Real.cos_two_mul' (θ / 2)
    rw [h2] at h; exact h
  have hs : Real.sin θ = 2 * Real.sin (θ / 2) * Real.cos (θ / 2) := by
    have h := Real.sin_two_mul (θ / 2)
    rw [h2] at h; exact h
  have h1 : Real.sin (θ / 2) ^ 2 + Real.cos (θ / 2) ^ 2 = 1 :=
    Real.sin_sq_add_cos_sq (θ / 2)
  apply mat3_ext <;> simp [quatToM, yRotQuat, specYawRot, hc, hs] <;> nlinarith

theorem mat3Mul_assoc (a b c : Mat3) :
    mat3Mul (mat3Mul a b) c = mat3Mul a (mat3Mul b c) := by
  apply mat3_ext <;> simp [mat3Mul] <;> ring

theorem mat3Mul_id (a : Mat3) : mat3Mul a mat3Id = a := by
  apply mat3_ext <;> simp [mat3Mul, mat3Id]

theorem mat3Transpose_mul (a b : Mat3) :
    mat3Transpose (mat3Mul a b) = mat3Mul (mat3Transpose b) (mat3Transpose a) := by
  apply mat3_ext <;> simp [mat3Mul, mat3Transpose] <;> ring

theorem specPitchRot_orthogonal (θ : ℝ) :
    mat3Mul (mat3Transpose (specPitchRot θ)) (specPitchRot θ) = mat3Id := by
  have h1 : Real.sin θ ^ 2 + Real.cos θ ^ 2 = 1 := Real.sin_sq_add_cos_sq θ
  apply mat3_ext <;> simp [mat3Mul, mat3Transpose, specPitchRot, mat3Id] <;> nlinarith

theorem specYawRot_orthogonal (θ : ℝ) :
    mat3Mul (mat3Transpose (specYawRot θ)) (specYawRot θ) = mat3Id := by
  have h1 : Real.sin θ ^ 2 + Real.cos θ ^ 2 = 1 := Real.sin_sq_add_cos_sq θ
  apply mat3_ext <;> simp [mat3Mul, mat3Transpose, specYawRot, mat3Id] <;> nlinarith

theorem specWorldRot_orthogonal (yaw pitch : ℝ) :
    mat3Mul (mat3Transpose (specWorldRot yaw pitch)) (specWorldRot yaw pitch) =
      mat3Id := by
  unfold specWorldRot
  rw [mat3Transpose_mul, mat3Mul_assoc, ← mat3Mul_assoc (mat3Transpose (specPitchRot (deg2rad pitch)))]
  rw [specPitchRot_orthogonal]
  have : mat3Mul mat3Id (specYawRot (deg2rad yaw)) = specYawRot (deg2rad yaw) := by
    apply mat3_ext <;> simp [mat3Mul, mat3Id]
  rw [this, specYawRot_orthogonal]

theorem quatToM_fromEulerYX (yaw pitch : ℝ) :
    quatToM (fromEulerYX yaw pitch) = specWorldRot yaw pitch := by
  unfold fromEulerYX specWorldRot
  rw [quatToM_mul, quatToM_xRotQuat, quatToM_yRotQuat]

theorem quatNormSq_fromEulerYX (yaw pitch : ℝ) :
    quatNormSq (fromEulerYX yaw pitch) = 1 := by
  unfold fromEulerYX
  rw [quatNormSq_mul, quatNormSq_xRotQuat, quatNormSq_yRotQuat, one_mul]


/-- Error taxonomy of the spec (§7); the transcription shows which of these
the code can actually signal.  `SourceUnreadable` models the `IOError`
raised by `process_video`; `RenderFailure` models an exception escaping the
external projection call. -/
inductive OmniErr where
  | SourceUnreadable (msg : String)
  | RenderFailure (msg : String)
  | EmptyCatalog
  | UnknownReference
  | InvalidFieldOfView
deriving DecidableEq

/-- The processor's loosely-typed `params` dictionary.  A view catalog entry
is `(name, pitch, yaw)`, in dict insertion order (`views` maps a name to a
`(pitch, yaw)` pair). -/
structure Params where
  fx : ℝ
  fy : ℝ
  cx : ℝ
  cy : ℝ
  height : ℕ
  width : ℕ
  fovH : ℝ
  fovV : ℝ
  frameInterval : ℕ
  numStepsYaw : ℕ
  pitchesDeg : List ℝ
  views : List (String × ℝ × ℝ)

/-- The default `views` dictionary of `OmniVideoProcessor.__init__`
(note: the two `yaw_90` names carry yaw 60 in the source). -/
def defaultViews : List (String × ℝ × ℝ) :=
  [("pitch_35_yaw_0", 35, 0),
   ("pitch_35_yaw_90", 35, 60),
   ("pitch_35_yaw_-90", 35, -90),
   ("pitch_35_yaw_180", 35, 180),
   ("pitch_-35_yaw_0", -35, 0),
   ("pitch_-35_yaw_90", -35, 60),
   ("pitch_-35_yaw_-90", -35, -90),
   ("pitch_-35_yaw_180", -35, 180)]

/-- The default `params` dictionary of `OmniVideoProcessor.__init__`. -/
def defaultParams : Params :=
  ⟨320, 320, 320, 320, 640, 640, 90, 90, 24, 4, [-35, 35], defaultViews⟩

/-- The mutable state of an `OmniVideoProcessor`: its `params` and its
`ref_sensor` attribute. -/
structure ProcessorState where
  params : Params
  refSensor : String

/-- Source `OmniVideoProcessor.__init__(params)`: `self.params = params or default`;
`self.ref_sensor = list(self.params["views"].keys())[0]`. -/
def initProcessor (p : Option Params) : ProcessorState :=
  let ps := p.getD defaultParams
  ⟨ps, (ps.views.headD ("", 0, 0)).1⟩

/-- Source `OmniVideoProcessor.set_params(params)`: replaces `self.params` and
leaves `self.ref_sensor` untouched. -/
def set_params (s : ProcessorState) (p : Params) : ProcessorState :=
  ⟨p, s.refSensor⟩

/-- One entry of the `camera_rig_params` dictionary built in
`_generate_pinhole_images`. -/
structure RigParam where
  viewName : String
  yaw : ℝ
  pitch : ℝ
  refFlag : Bool

/-- The rig-parameter value stored for a view `(name, pitch, yaw)`:
`{"image_prefix": name, "yaw": yaw, "pitch": pitch,
"ref_sensor": name == self.ref_sensor}`. -/
def mkRigParam (refSensor : String) (v : String × ℝ × ℝ) : RigParam :=
  ⟨v.1, v.2.2, v.2.1, v.1 == refSensor⟩

/-- Source line `if view_name not in camera_rig_params: camera_rig_params[view_name] = rp`
(Python dicts keep insertion order, so the dict is an association list). -/
def insertRigParam (acc : List RigParam) (rp : RigParam) : List RigParam :=
  if acc.any (fun q => q.viewName == rp.viewName) then acc else acc ++ [rp]

/-- The rig-parameter insertions performed by the inner (per-view) loop of
`_generate_pinhole_images` for one panorama frame. -/
def rigParamsOnePano (refSensor : String) (views : List (String × ℝ × ℝ))
    (acc : List RigParam) : List RigParam :=
  views.foldl (fun a v => insertRigParam a (mkRigParam refSensor v)) acc

/-- The `camera_rig_params` dictionary after processing `n` panorama
frames. -/
def buildRigParams (refSensor : String) (views : List (String × ℝ × ℝ)) :
    ℕ → List RigParam
  | 0 => []
  | n + 1 => rigParamsOnePano refSensor views (buildRigParams refSensor views n)

/-- One camera entry of the emitted `rig_config.json` document.  For the
reference entry the source emits only `image_prefix` and `ref_sensor: true`
(`rotation = none`, `translation = none`); for the others it emits
`cam_from_rig_rotation` (components in `(w,x,y,z)` order) and
`cam_from_rig_translation`, and no reference field (`refFlag = false`). -/
structure RigCamera where
  viewName : String
  refFlag : Bool
  rotation : Option (ℝ × ℝ × ℝ × ℝ)
  translation : Option (ℝ × ℝ × ℝ)

/-- The single `{"cameras": [...]}` object of the rig document. -/
structure RigDoc where
  cameras : List RigCamera

/-- The body of the `for image_prefix, params in camera_rig_params.items()`
loop of `_save_colmap_camera_rig`, for one entry, given the reference
view's pitch and yaw. -/
noncomputable def rigCameraEntry (refPitch refYaw : ℝ) (prm : RigParam) :
    RigCamera :=
  let rRefWorld := fromEulerYX refYaw refPitch
  let rViewWorld := fromEulerYX prm.yaw prm.pitch
  let rRefView := quatMul rRefWorld (quatConj rViewWorld)
  let qvecScipy : ℝ × ℝ × ℝ × ℝ := (rRefView.x, rRefView.y, rRefView.z, rRefView.w)
  let qvecColmap : ℝ × ℝ × ℝ × ℝ :=
    (qvecScipy.2.2.2, qvecScipy.1, qvecScipy.2.1, qvecScipy.2.2.1)
  let tvec : ℝ × ℝ × ℝ := (0, 0, 0)
  if prm.refFlag then ⟨prm.viewName, true, none, none⟩
  else ⟨prm.viewName, false, some qvecColmap, some tvec⟩

/-- Source `_save_colmap_camera_rig(camera_rig_params, output_file)`: returns the
document written to `rig_config.json`, `none` when nothing is written (the
early `if not self.params["views"]: return`), and never signals an error. -/
noncomputable def saveColmapCameraRig (views : List (String × ℝ × ℝ))
    (rigParams : List RigParam) : Except OmniErr (Option (List RigDoc)) :=
  match views with
  | [] => Except.ok none
  | (_, refPitch, refYaw) :: _ =>
      Except.ok (some [⟨rigParams.map (rigCameraEntry refPitch refYaw)⟩])

/-- The camera list of the rig document produced by
`_save_colmap_camera_rig`, empty when no document is written. -/
noncomputable def camerasOfSave (views : List (String × ℝ × ℝ))
    (rigParams : List RigParam) : List RigCamera :=
  match saveColmapCameraRig views rigParams with
  | Except.ok (some (d :: _)) => d.cameras
  | _ => []

/-- Zero-padding of the frame index in the image file name
(`f"pinhole_{pano_idx:04d}.jpg"`). -/
def pad4 (n : ℕ) : String :=
  let s := toString n
  String.mk (List.replicate (4 - s.length) '0' ++ s.data)

/-- The file name of a rendered pinhole image for a given frame index. -/
def pinholeImageName (panoIdx : ℕ) : String :=
  "pinhole_" ++ pad4 panoIdx ++ ".jpg"

/-- One record of the emitted `camera_params.json` document, built by
`_create_camera_params` (the JSON field `image_prefix` is `viewName`
here). -/
structure CameraParams where
  imageName : String
  fx : ℝ
  fy : ℝ
  cx : ℝ
  cy : ℝ
  height : ℕ
  width : ℕ
  fovH : ℝ
  fovV : ℝ
  viewName : String
  yaw : ℝ
  pitch : ℝ
  panoIndex : ℕ
  refSensor : Bool

/-- Source `_create_camera_params(save_path, pano_idx, view_name, pitch, yaw,
ref_sensor)`: the focal lengths are recomputed from FOV and resolution. -/
noncomputable def createCameraParams (p : Params) (panoIdx : ℕ)
    (viewName : String) (pitch yaw : ℝ) (refSensor : Bool) : CameraParams :=
  ⟨pinholeImageName panoIdx,
   compute_focal_length (p.width : ℝ) p.fovH,
   compute_focal_length (p.height : ℝ) p.fovV,
   p.cx, p.cy, p.height, p.width, p.fovH, p.fovV,
   viewName, yaw, pitch, panoIdx, refSensor⟩

/-- The in-memory state threaded through the double loop of
`_generate_pinhole_images`: the `pinhole_images` list, the
`pinhole_camera_params` list and the `camera_rig_params` dictionary. -/
structure GenState where
  images : List (ℕ × String × ℕ)
  camParams : List CameraParams
  rigParams : List RigParam

/-- The loop body of `_generate_pinhole_images` for one `(frame, view)`
pair: render (an exception propagates), record the image, append its camera
record, and insert the view into `camera_rig_params` if absent. -/
noncomputable def genStep (render : ℕ → ℝ → ℝ → Except OmniErr ℕ) (p : Params)
    (refSensor : String) (panoIdx pano : ℕ) (st : GenState)
    (v : String × ℝ × ℝ) : Except OmniErr GenState := do
  let img ← render pano v.2.1 v.2.2
  let cp := createCameraParams p panoIdx v.1 v.2.1 v.2.2 (v.1 == refSensor)
  pure ⟨st.images ++ [(panoIdx, v.1, img)],
        st.camParams ++ [cp],
        insertRigParam st.rigParams (mkRigParam refSensor v)⟩

/-- The double loop of `_generate_pinhole_images` over
`enumerate(pano_images)` and `views.items()`. -/
noncomputable def genLoop (render : ℕ → ℝ → ℝ → Except OmniErr ℕ) (p : Params)
    (refSensor : String) (panos : List ℕ) : Except OmniErr GenState :=
  panos.enum.foldlM
    (fun st pi =>
      p.views.foldlM (fun st2 v => genStep render p refSensor pi.1 pi.2 st2 v) st)
    ⟨[], [], []⟩

/-- Source `_generate_pinhole_images(pano_images, output_dir)`: runs the render
loop, then emits the `camera_params.json` list and the `rig_config.json`
document; returns everything the run produces. -/
noncomputable def generatePinholeImages (render : ℕ → ℝ → ℝ → Except OmniErr ℕ)
    (p : Params) (refSensor : String) (panos : List ℕ) :
    Except OmniErr (List (ℕ × String × ℕ) × List CameraParams × Option (List RigDoc)) := do
  let st ← genLoop render p refSensor panos
  let rigDoc ← saveColmapCameraRig p.views st.rigParams
  pure (st.images, st.camParams, rigDoc)

/-- The frame-reading loop of `_extract_frames`: `reads i` is the result of
the `i`-th `video.read()` call (`none` models `ret == False`); `k` is
`frame_interval`, the second argument counts the remaining loop
iterations. -/
def extractLoop (reads : ℕ → Option ℕ) (k : ℕ) : ℕ → ℕ → List ℕ
  | _, 0 => []
  | idx, fuel + 1 =>
      match reads idx with
      | none => []
      | some f => (if idx % k == 0 then [f] else []) ++ extractLoop reads k (idx + 1) fuel

/-- Source `_extract_frames(video, output_dir)` for a stream reporting
`frame_count = N`. -/
def extractFrames (reads : ℕ → Option ℕ) (k : ℕ) (N : ℕ) : List ℕ :=
  extractLoop reads k 0 N

/-- Source `process_video(video_file, output_dir)`: raises
`IOError("Cannot open video file: ...")` when the capture is not opened,
otherwise extracts frames and generates the pinhole images. -/
noncomputable def processVideo (render : ℕ → ℝ → ℝ → Except OmniErr ℕ)
    (s : ProcessorState) (isOpened : Bool) (reads : ℕ → Option ℕ)
    (frameCount : ℕ) :
    Except OmniErr (List (ℕ × String × ℕ) × List CameraParams × Option (List RigDoc)) :=
  if isOpened then
    generatePinholeImages render s.params s.refSensor
      (extractFrames reads s.params.frameInterval frameCount)
  else Except.error (OmniErr.SourceUnreadable "Cannot open video file")


/-- The rig cameras contained in the full run result (empty when no rig
document was produced). -/
noncomputable def camerasOfOut
    (out : List (ℕ × String × ℕ) × List CameraParams × Option (List RigDoc)) :
    List RigCamera :=
  match out.2.2 with
  | some (d :: _) => d.cameras
  | _ => []

/-- The rig cameras emitted by a call to `_generate_pinhole_images` (empty
when the call raises or writes no rig document). -/
noncomputable def camerasOfRun (render : ℕ → ℝ → ℝ → Except OmniErr ℕ)
    (p : Params) (refSensor : String) (panos : List ℕ) : List RigCamera :=
  match generatePinholeImages render p refSensor panos with
  | Except.ok out => camerasOfOut out
  | Except.error _ => []

/-- The rig cameras emitted by a call to `process_video`. -/
noncomputable def camerasOfPV (render : ℕ → ℝ → ℝ → Except OmniErr ℕ)
    (s : ProcessorState) (isOpened : Bool) (reads : ℕ → Option ℕ)
    (frameCount : ℕ) : List RigCamera :=
  match processVideo render s isOpened reads frameCount with
  | Except.ok out => camerasOfOut out
  | Except.error _ => []

/-- The internal relative rotation computed by `_save_colmap_camera_rig` for
reference view `w` and view `v` (both `(name, pitch, yaw)`):
`R_ref_world * R_view_world.inv()` as a scipy-layout quaternion. -/
noncomputable def relQuat (w v : String × ℝ × ℝ) : Quat :=
  quatMul (fromEulerYX w.2.2 w.2.1) (quatConj (fromEulerYX v.2.2 v.2.1))

theorem extractLoop_eq (reads : ℕ → Option ℕ) (k : ℕ) :
    ∀ (fuel idx : ℕ),
      extractLoop reads k idx fuel =
        (((List.range' idx fuel).takeWhile (fun i => (reads i).isSome)).filter
          (fun i => i % k == 0)).filterMap reads := by
  intro fuel
  induction fuel with
  | zero => intro idx; simp [extractLoop]
  | succ n ih =>
      intro idx
      rw [List.range'_succ]
      cases hr : reads idx with
      | none => simp [extractLoop, hr, List.takeWhile_cons]
      | some f =>
          rw [List.takeWhile_cons]
          simp only [hr, Option.isSome_some, if_true]
          rw [List.filter_cons]
          by_cases hk : (idx % k == 0) = true
          · simp only [hk, if_true, List.filterMap_cons, hr]
            simp [extractLoop, hr, hk, ih]
          · simp only [Bool.not_eq_true] at hk
            simp [extractLoop, hr, hk, ih]

theorem extractFrames_all_some (k N : ℕ) :
    extractFrames (fun j => some j) k N =
      (List.range N).filter (fun i => i % k == 0) := by
  rw [extractFrames, extractLoop_eq, List.range_eq_range']
  rw [List.takeWhile_eq_self_iff.mpr (by intro x _; rfl)]
  have hsome : (fun (j : ℕ) => some j) = (some : ℕ → Option ℕ) := rfl
  rw [hsome, List.filterMap_some]

theorem takeWhile_range'_of_fail (reads : ℕ → Option ℕ) (N m : ℕ) (hm : m ≤ N)
    (hfail : reads m = none) (hok : ∀ i, i < m → (reads i).isSome = true) :
    (List.range' 0 N).takeWhile (fun i => (reads i).isSome) = List.range' 0 m := by
  have hsplit : List.range' 0 m ++ List.range' m (N - m) = List.range' 0 N := by
    have h := List.range'_append 0 m (N - m) 1
    simp only [Nat.one_mul, Nat.zero_add] at h
    have hq : N - m + m = N := by omega
    rw [hq] at h
    exact h
  rw [← hsplit, List.takeWhile_append_of_pos ?hall]
  case hall =>
    intro a ha
    simp only [List.mem_range'_1] at ha
    exact hok a (by omega)
  suffices h2 : (List.range' m (N - m)).takeWhile (fun i => (reads i).isSome) = [] by
    rw [h2, List.append_nil]
  cases hnm : N - m with
  | zero => simp
  | succ t =>
      rw [List.range'_succ, List.takeWhile_cons]
      simp [hfail]

theorem rigParamsOnePano_saturated (refS : String) :
    ∀ (views : List (String × ℝ × ℝ)) (acc : List RigParam),
      (∀ v ∈ views, acc.any (fun q => q.viewName == v.1) = true) →
      rigParamsOnePano refS views acc = acc := by
  intro views
  induction views with
  | nil => intro acc _; rfl
  | cons v vs ih =>
      intro acc h
      have hv := h v (List.mem_cons_self v vs)
      have hstep : insertRigParam acc (mkRigParam refS v) = acc := by
        simp [insertRigParam, mkRigParam, hv]
      calc rigParamsOnePano refS (v :: vs) acc
          = rigParamsOnePano refS vs (insertRigParam acc (mkRigParam refS v)) := rfl
        _ = rigParamsOnePano refS vs acc := by rw [hstep]
        _ = acc := ih acc (fun u hu => h u (List.mem_cons_of_mem v hu))

theorem rigParamsOnePano_fresh (refS : String) :
    ∀ (views : List (String × ℝ × ℝ)) (acc : List RigParam),
      (∀ v ∈ views, acc.any (fun q => q.viewName == v.1) = false) →
      (views.map Prod.fst).Nodup →
      rigParamsOnePano refS views acc = acc ++ views.map (mkRigParam refS) := by
  intro views
  induction views with
  | nil => intro acc _ _; simp [rigParamsOnePano]
  | cons v vs ih =>
      intro acc h hnd
      have hv := h v (List.mem_cons_self v vs)
      have hstep : insertRigParam acc (mkRigParam refS v) = acc ++ [mkRigParam refS v] := by
        simp [insertRigParam, mkRigParam, hv]
      have hnd' : (vs.map Prod.fst).Nodup := by
        simp only [List.map_cons, List.nodup_cons] at hnd
        exact hnd.2
      have hnotin : v.1 ∉ vs.map Prod.fst := by
        simp only [List.map_cons, List.nodup_cons] at hnd
        exact hnd.1
      have h' : ∀ u ∈ vs, (acc ++ [mkRigParam refS v]).any (fun q => q.viewName == u.1) = false := by
        intro u hu
        rw [List.any_append]
        have h1 := h u (List.mem_cons_of_mem v hu)
        have h2 : (mkRigParam refS v).viewName ≠ u.1 := by
          intro hequ
          exact hnotin (by
            simp only [mkRigParam] at hequ
            rw [hequ]
            exact List.mem_map_of_mem Prod.fst hu)
        simp [h1, h2]
      calc rigParamsOnePano refS (v :: vs) acc
          = rigParamsOnePano refS vs (insertRigParam acc (mkRigParam refS v)) := rfl
        _ = rigParamsOnePano refS vs (acc ++ [mkRigParam refS v]) := by rw [hstep]
        _ = acc ++ [mkRigParam refS v] ++ vs.map (mkRigParam refS) := ih _ h' hnd'
        _ = acc ++ (v :: vs).map (mkRigParam refS) := by simp

theorem map_names_saturating (refS : String) (views : List (String × ℝ × ℝ)) :
    ∀ v ∈ views, (views.map (mkRigParam refS)).any (fun q => q.viewName == v.1) = true := by
  intro v hv
  rw [List.any_eq_true]
  exact ⟨mkRigParam refS v, List.mem_map_of_mem _ hv, by simp [mkRigParam]⟩

theorem buildRigParams_eq_map (refS : String) (views : List (String × ℝ × ℝ))
    (hnd : (views.map Prod.fst).Nodup) :
    ∀ n, 1 ≤ n → buildRigParams refS views n = views.map (mkRigParam refS) := by
  intro n
  induction n with
  | zero => intro h; omega
  | succ m ih =>
      intro _
      show rigParamsOnePano refS views (buildRigParams refS views m) =
        views.map (mkRigParam refS)
      cases m with
      | zero =>
          show rigParamsOnePano refS views [] = views.map (mkRigParam refS)
          have := rigParamsOnePano_fresh refS views [] (by intro v _; rfl) hnd
          simpa using this
      | succ t =>
          rw [ih (by omega)]
          exact rigParamsOnePano_saturated refS views _ (map_names_saturating refS views)

theorem mem_rigParamsOnePano (refS : String) :
    ∀ (views : List (String × ℝ × ℝ)) (acc : List RigParam) (rp : RigParam),
      rp ∈ rigParamsOnePano refS views acc →
      rp ∈ acc ∨ ∃ v ∈ views, rp = mkRigParam refS v := by
  intro views
  induction views with
  | nil => intro acc rp h; exact Or.inl h
  | cons v vs ih =>
      intro acc rp h
      have h' : rp ∈ rigParamsOnePano refS vs (insertRigParam acc (mkRigParam refS v)) := h
      rcases ih _ rp h' with hmem | ⟨u, hu, hrp⟩
      · by_cases hc : acc.any (fun q => q.viewName == (mkRigParam refS v).viewName) = true
        · rw [insertRigParam, if_pos hc] at hmem
          exact Or.inl hmem
        · rw [insertRigParam, if_neg hc] at hmem
          rcases List.mem_append.mp hmem with ha | hb
          · exact Or.inl ha
          · refine Or.inr ⟨v, List.mem_cons_self v vs, ?_⟩
            simpa using hb
      · exact Or.inr ⟨u, List.mem_cons_of_mem v hu, hrp⟩

theorem mem_buildRigParams (refS : String) (views : List (String × ℝ × ℝ)) :
    ∀ (n : ℕ) (rp : RigParam), rp ∈ buildRigParams refS views n →
      ∃ v ∈ views, rp = mkRigParam refS v := by
  intro n
  induction n with
  | zero => intro rp h; simp [buildRigParams] at h
  | succ m ih =>
      intro rp h
      have h' : rp ∈ rigParamsOnePano refS views (buildRigParams refS views m) := h
      rcases mem_rigParamsOnePano refS views _ rp h' with hmem | hex
      · exact ih rp hmem
      · exact hex

/-- Iterating the per-pano rig insertions, matching the left-to-right order
of the outer loop. -/
def iterPanos (refS : String) (views : List (String × ℝ × ℝ)) :
    ℕ → List RigParam → List RigParam
  | 0, r => r
  | n + 1, r => iterPanos refS views n (rigParamsOnePano refS views r)

theorem iterPanos_comm (refS : String) (views : List (String × ℝ × ℝ)) :
    ∀ (n : ℕ) (r : List RigParam),
      iterPanos refS views n (rigParamsOnePano refS views r) =
        rigParamsOnePano refS views (iterPanos refS views n r) := by
  intro n
  induction n with
  | zero => intro r; rfl
  | succ m ih =>
      intro r
      show iterPanos refS views m (rigParamsOnePano refS views (rigParamsOnePano refS views r)) =
        rigParamsOnePano refS views (iterPanos refS views m (rigParamsOnePano refS views r))
      exact ih (rigParamsOnePano refS views r)

theorem iterPanos_eq_build (refS : String) (views : List (String × ℝ × ℝ)) :
    ∀ n, iterPanos refS views n [] = buildRigParams refS views n := by
  intro n
  induction n with
  | zero => rfl
  | succ m ih =>
      show iterPanos refS views m (rigParamsOnePano refS views []) =
        rigParamsOnePano refS views (buildRigParams refS views m)
      rw [iterPanos_comm, ih]


theorem genInner_ok (render : ℕ → ℝ → ℝ → Except OmniErr ℕ) (p : Params)
    (refS : String) (panoIdx pano : ℕ) :
    ∀ (vl : List (String × ℝ × ℝ)) (st st' : GenState),
      vl.foldlM (fun s v => genStep render p refS panoIdx pano s v) st = Except.ok st' →
      st'.rigParams = rigParamsOnePano refS vl st.rigParams := by
  intro vl
  induction vl with
  | nil =>
      intro st st' h
      simp only [List.foldlM] at h
      cases h
      rfl
  | cons v vs ih =>
      intro st st' h
      rw [List.foldlM_cons] at h
      cases hr : render pano v.2.1 v.2.2 with
      | error e =>
          rw [genStep, hr] at h
          exact Except.noConfusion h
      | ok img =>
          rw [genStep, hr] at h
          have h2 := ih
            ⟨st.images ++ [(panoIdx, v.1, img)],
             st.camParams ++
               [createCameraParams p panoIdx v.1 v.2.1 v.2.2 (v.1 == refS)],
             insertRigParam st.rigParams (mkRigParam refS v)⟩ st' h
          rw [h2]
          rfl

theorem genOuter_ok (render : ℕ → ℝ → ℝ → Except OmniErr ℕ) (p : Params)
    (refS : String) :
    ∀ (pl : List (ℕ × ℕ)) (st st' : GenState),
      pl.foldlM
          (fun s pi =>
            p.views.foldlM (fun s2 v => genStep render p refS pi.1 pi.2 s2 v) s)
          st = Except.ok st' →
      st'.rigParams = iterPanos refS p.views pl.length st.rigParams := by
  intro pl
  induction pl with
  | nil =>
      intro st st' h
      simp only [List.foldlM] at h
      cases h
      rfl
  | cons q qs ih =>
      intro st st' h
      rw [List.foldlM_cons] at h
      cases hin : p.views.foldlM (fun s2 v => genStep render p refS q.1 q.2 s2 v) st with
      | error e =>
          rw [hin] at h
          exact Except.noConfusion h
      | ok st2 =>
          rw [hin] at h
          have h2 := ih st2 st' h
          rw [h2, genInner_ok render p refS q.1 q.2 p.views st st2 hin]
          rfl

theorem genLoop_ok_rigParams {render : ℕ → ℝ → ℝ → Except OmniErr ℕ} {p : Params}
    {refS : String} {panos : List ℕ} {st' : GenState}
    (h : genLoop render p refS panos = Except.ok st') :
    st'.rigParams = buildRigParams refS p.views panos.length := by
  have h2 := genOuter_ok render p refS panos.enum ⟨[], [], []⟩ st' h
  rw [h2, List.enum_length]
  exact iterPanos_eq_build refS p.views panos.length


/-- C3: the intrinsics calculator computes the focal length exactly by the
formula `f = (size/2)/tan(deg2rad(fov)/2)`; in particular, for `width = 640`
and `fov_h = 90` degrees it returns `fx = 320` exactly. -/
theorem focal_length_formula_and_example :
    (∀ size fov : ℝ,
      compute_focal_length size fov = size / 2 / Real.tan (deg2rad fov / 2)) ∧
    compute_focal_length 640 90 = 320 := by
  constructor
  · intro size fov
    rw [compute_focal_length, div_div]
  · rw [compute_focal_length]
    have h : deg2rad 90 / 2 = Real.pi / 4 := by rw [deg2rad]; ring
    rw [h, Real.tan_pi_div_four]
    norm_num

/-- C4 counterexample: `compute_focal_length` performs no field-of-view
validation: at `fov = 270` (outside `(0,180)`) it returns the value `-320`
instead of failing with an `InvalidFieldOfView` error. -/
theorem focal_length_no_fov_check_cex : compute_focal_length 640 270 = -320 := by
  rw [compute_focal_length]
  have h : deg2rad 270 / 2 = Real.pi - Real.pi / 4 := by rw [deg2rad]; ring
  have ht : Real.tan (Real.pi - Real.pi / 4) = -1 := by
    rw [Real.tan_eq_sin_div_cos, Real.sin_pi_sub, Real.cos_pi_sub,
      Real.sin_pi_div_four, Real.cos_pi_div_four]
    have hne : Real.sqrt 2 / 2 ≠ 0 := by positivity
    rw [div_neg, div_self hne]
  rw [h, ht]
  norm_num

/-- C4 amended: the intrinsics computation applies the focal formula
unconditionally — for any field of view in `[180, 360]` it returns a
non-positive focal length rather than signalling an error. -/
theorem focal_length_no_fov_check (fov : ℝ) (h1 : 180 ≤ fov) (h2 : fov ≤ 360) :
    compute_focal_length 640 fov ≤ 0 := by
  rw [compute_focal_length]
  have hpi := Real.pi_pos
  have hθeq : deg2rad fov / 2 = fov * Real.pi / 360 := by rw [deg2rad]; ring
  have hlb : Real.pi / 2 ≤ deg2rad fov / 2 := by rw [hθeq]; nlinarith
  have hub : deg2rad fov / 2 ≤ Real.pi := by rw [hθeq]; nlinarith
  have hsin : 0 ≤ Real.sin (deg2rad fov / 2) :=
    Real.sin_nonneg_of_nonneg_of_le_pi (by nlinarith) hub
  have hcos : Real.cos (deg2rad fov / 2) ≤ 0 :=
    Real.cos_nonpos_of_pi_div_two_le_of_le hlb (by nlinarith)
  have htan : Real.tan (deg2rad fov / 2) ≤ 0 := by
    rw [Real.tan_eq_sin_div_cos]
    exact div_nonpos_iff.mpr (Or.inl ⟨hsin, hcos⟩)
  have h2t : 2 * Real.tan (deg2rad fov / 2) ≤ 0 := by linarith
  rw [div_eq_mul_inv]
  have hinv : (2 * Real.tan (deg2rad fov / 2))⁻¹ ≤ 0 := inv_nonpos.mpr h2t
  nlinarith

/-- C4 witness: the amended statement evaluated at `fov = 270`. -/
theorem focal_length_no_fov_check_witness : compute_focal_length 640 270 ≤ 0 :=
  focal_length_no_fov_check 270 (by norm_num) (by norm_num)

/-- C6: for a stream whose every read succeeds (frames identified with their
indices), the sampler keeps exactly the indices `0, k, 2k, …` below `N`, in
increasing order; for `N = 100`, `k = 24` the result is exactly
`[0, 24, 48, 72, 96]`. -/
theorem frame_sampler_indices (N k : ℕ) (hk : 1 ≤ k) :
    (∀ i : ℕ, i ∈ extractFrames (fun j => some j) k N ↔ (i < N ∧ i % k = 0)) ∧
    List.Pairwise (· < ·) (extractFrames (fun j => some j) k N) ∧
    extractFrames (fun j => some j) 24 100 = [0, 24, 48, 72, 96] := by
  refine ⟨?_, ?_, ?_⟩
  · intro i
    rw [extractFrames_all_some]
    simp [List.mem_filter, List.mem_range]
  · rw [extractFrames_all_some]
    exact List.Pairwise.sublist (List.filter_sublist _) (List.pairwise_lt_range N)
  · decide

/-- C6 witness: the sampler at `frame_count = 100`, `interval = 24`. -/
theorem frame_sampler_indices_witness :
    extractFrames (fun j => some j) 24 100 = [0, 24, 48, 72, 96] :=
  (frame_sampler_indices 100 24 (by decide)).2.2


/-- C8: with an unopenable stream, `process_video` raises the source error
before anything else runs; a failed read at position `m` mid-stream is not
fatal — extraction stops there and returns exactly the frames collected
from the indices below `m`. -/
theorem source_unreadable_and_early_stop (render : ℕ → ℝ → ℝ → Except OmniErr ℕ)
    (s : ProcessorState) (reads : ℕ → Option ℕ) (N k m : ℕ) (hm : m ≤ N)
    (hfail : reads m = none) (hok : ∀ i, i < m → (reads i).isSome = true) :
    processVideo render s false reads N =
      Except.error (OmniErr.SourceUnreadable "Cannot open video file") ∧
    extractFrames reads k N = extractFrames reads k m ∧
    extractFrames reads k m =
      ((List.range m).filter (fun i => i % k == 0)).filterMap reads := by
  have hself : (List.range' 0 m).takeWhile (fun i => (reads i).isSome) =
      List.range' 0 m := by
    rw [List.takeWhile_eq_self_iff]
    intro x hx
    simp only [List.mem_range'_1] at hx
    exact hok x (by omega)
  refine ⟨rfl, ?_, ?_⟩
  · rw [extractFrames, extractFrames, extractLoop_eq, extractLoop_eq]
    rw [takeWhile_range'_of_fail reads N m hm hfail hok, hself]
  · rw [extractFrames, extractLoop_eq, hself, List.range_eq_range']

/-- C8 witness: a stream that fails at the fourth read, with
`frame_count = 10` and `interval = 2`. -/
theorem source_unreadable_and_early_stop_witness :
    processVideo (fun _ _ _ => Except.ok 0) (initProcessor none) false
        (fun i => if i < 3 then some i else none) 10 =
      Except.error (OmniErr.SourceUnreadable "Cannot open video file") ∧
    extractFrames (fun i => if i < 3 then some i else none) 2 10 =
      extractFrames (fun i => if i < 3 then some i else none) 2 3 ∧
    extractFrames (fun i => if i < 3 then some i else none) 2 3 =
      ((List.range 3).filter (fun i => i % 2 == 0)).filterMap
        (fun i => if i < 3 then some i else none) :=
  source_unreadable_and_early_stop _ (initProcessor none) _ 10 2 3 (by omega)
    (by decide) (fun i hi => by simp [hi])

/-- C10: with a non-empty view catalog and zero sampled frames, the run
completes without error, the camera-parameter document is the empty list,
and the rig document is a single-element list wrapping an empty cameras
array (no reference entry). -/
theorem zero_frames_output (render : ℕ → ℝ → ℝ → Except OmniErr ℕ) (p : Params)
    (refS : String) (w : String × ℝ × ℝ) (ws : List (String × ℝ × ℝ))
    (hv : p.views = w :: ws) :
    generatePinholeImages render p refS [] = Except.ok ([], [], some [⟨[]⟩]) := by
  have hsave : saveColmapCameraRig p.views ([] : List RigParam) =
      Except.ok (some [⟨[]⟩]) := by
    rw [hv]
    rcases w with ⟨a, b, c⟩
    rfl
  calc generatePinholeImages render p refS []
      = (saveColmapCameraRig p.views [] >>= fun rigDoc =>
          pure ([], [], rigDoc)) := rfl
    _ = Except.ok ([], [], some [⟨[]⟩]) := by rw [hsave]; rfl

/-- C10 witness: the default parameters with an empty frame list. -/
theorem zero_frames_output_witness :
    generatePinholeImages (fun _ _ _ => Except.ok 0) defaultParams "x" [] =
      Except.ok ([], [], some [⟨[]⟩]) :=
  zero_frames_output _ defaultParams "x" ("pitch_35_yaw_0", 35, 0)
    [("pitch_35_yaw_90", 35, 60), ("pitch_35_yaw_-90", 35, -90),
     ("pitch_35_yaw_180", 35, 180), ("pitch_-35_yaw_0", -35, 0),
     ("pitch_-35_yaw_90", -35, 60), ("pitch_-35_yaw_-90", -35, -90),
     ("pitch_-35_yaw_180", -35, 180)] rfl

/-- C5 counterexample: the rig computation does not fail on an empty
catalog (it returns without writing anything) nor on a reference name
absent from the catalog (it emits a document normally). -/
theorem rig_config_no_errors_cex :
    saveColmapCameraRig [] [] = Except.ok none ∧
    saveColmapCameraRig [("a", 0, 0)] [mkRigParam "zzz" ("a", 0, 0)] =
      Except.ok (some [⟨[rigCameraEntry 0 0 (mkRigParam "zzz" ("a", 0, 0))]⟩]) :=
  ⟨rfl, rfl⟩

/-- C5 amended: an empty catalog makes the rig computation return without
error and without a document; an absent reference name silently yields rig
parameters and cameras that all lack the reference flag. -/
theorem rig_config_no_errors_amended (views : List (String × ℝ × ℝ))
    (rigParams : List RigParam) (refS : String) (n : ℕ) (rp : RigParam)
    (cam : RigCamera) (habs : refS ∉ views.map Prod.fst)
    (hrp : rp ∈ buildRigParams refS views n)
    (hcam : cam ∈ camerasOfSave views (buildRigParams refS views n)) :
    saveColmapCameraRig [] rigParams = Except.ok none ∧
    rp.refFlag = false ∧ cam.refFlag = false := by
  have key : ∀ q : RigParam, q ∈ buildRigParams refS views n → q.refFlag = false := by
    intro q hq
    obtain ⟨v, hv, rfl⟩ := mem_buildRigParams refS views n q hq
    show (v.1 == refS) = false
    rw [beq_eq_false_iff_ne]
    intro hne
    exact habs (hne ▸ List.mem_map_of_mem Prod.fst hv)
  refine ⟨rfl, key rp hrp, ?_⟩
  rcases views with _ | ⟨⟨a, b, c⟩, ws⟩
  · exact absurd hcam (List.not_mem_nil cam)
  · have hcam' : cam ∈
        (buildRigParams refS ((a, b, c) :: ws) n).map (rigCameraEntry b c) := hcam
    obtain ⟨q, hq, rfl⟩ := List.mem_map.mp hcam'
    have hqf := key q hq
    simp [rigCameraEntry, hqf]

/-- C5 witness: a one-view catalog with reference name `"zzz"` absent. -/
theorem rig_config_no_errors_witness :
    saveColmapCameraRig [] [] = Except.ok none ∧
    (mkRigParam "zzz" ("a", (0 : ℝ), (0 : ℝ))).refFlag = false ∧
    (rigCameraEntry 0 0 (mkRigParam "zzz" ("a", 0, 0))).refFlag = false :=
  rig_config_no_errors_amended [("a", 0, 0)] [] "zzz" 1 _ _
    (by simp) (List.Mem.head _) (List.Mem.head _)

/-- C9: every emitted non-reference rig camera has translation exactly
`[0,0,0]` and carries a rotation; the reference entry carries neither a
rotation nor a translation field. -/
theorem rig_camera_fields (views : List (String × ℝ × ℝ))
    (rigParams : List RigParam) (cam : RigCamera)
    (hcam : cam ∈ camerasOfSave views rigParams) :
    (cam.refFlag = false →
      cam.translation = some (0, 0, 0) ∧ cam.rotation.isSome = true) ∧
    (cam.refFlag = true → cam.rotation = none ∧ cam.translation = none) := by
  rcases views with _ | ⟨⟨a, b, c⟩, ws⟩
  · exact absurd hcam (List.not_mem_nil cam)
  · have hcam' : cam ∈ rigParams.map (rigCameraEntry b c) := hcam
    obtain ⟨q, hq, rfl⟩ := List.mem_map.mp hcam'
    by_cases hf : q.refFlag <;> simp [rigCameraEntry, hf]

/-- C9 witness: the reference entry of a one-view catalog. -/
theorem rig_camera_fields_witness :
    ((rigCameraEntry 0 0 (mkRigParam "a" ("a", 0, 0))).refFlag = false →
      (rigCameraEntry 0 0 (mkRigParam "a" ("a", 0, 0))).translation = some (0, 0, 0) ∧
      (rigCameraEntry 0 0 (mkRigParam "a" ("a", 0, 0))).rotation.isSome = true) ∧
    ((rigCameraEntry 0 0 (mkRigParam "a" ("a", 0, 0))).refFlag = true →
      (rigCameraEntry 0 0 (mkRigParam "a" ("a", 0, 0))).rotation = none ∧
      (rigCameraEntry 0 0 (mkRigParam "a" ("a", 0, 0))).translation = none) :=
  rig_camera_fields [("a", 0, 0)] [mkRigParam "a" ("a", 0, 0)] _ (List.Mem.head _)


/-- A two-view catalog used to exercise the rig emitter. -/
def twoViewParams : Params :=
  ⟨320, 320, 320, 320, 640, 640, 90, 90, 24, 4, [-35, 35],
   [("a", 0, 0), ("b", 10, 20)]⟩

/-- C2: in any run over a uniquely-named catalog with at least one sampled
frame, each non-reference view's emitted rotation is the `(w,x,y,z)`
reordering of the internal `(x,y,z,w)` relative quaternion
`R_ref_world * R_view_world⁻¹`; that quaternion is unit, and as a rotation
it carries the view's yaw-then-pitch world orientation to the reference's
yaw-then-pitch world orientation. -/
theorem rig_relative_rotation (render : ℕ → ℝ → ℝ → Except OmniErr ℕ)
    (p : Params) (refS : String) (panos : List ℕ) (w v : String × ℝ × ℝ)
    (ws : List (String × ℝ × ℝ)) (cam : RigCamera)
    (hv : p.views = w :: ws)
    (hnd : ((w :: ws).map Prod.fst).Nodup)
    (hmem : v ∈ w :: ws)
    (hvr : (v.1 == refS) = false)
    (hpanos : panos ≠ [])
    (hcam : cam ∈ camerasOfRun render p refS panos)
    (hname : cam.viewName = v.1) :
    cam.rotation = some ((relQuat w v).w, (relQuat w v).x,
      (relQuat w v).y, (relQuat w v).z) ∧
    quatNormSq (relQuat w v) = 1 ∧
    mat3Mul (quatToM (relQuat w v)) (specWorldRot v.2.2 v.2.1) =
      specWorldRot w.2.2 w.2.1 := by
  have hns : quatNormSq (relQuat w v) = 1 := by
    rw [relQuat, quatNormSq_mul, quatNormSq_conj, quatNormSq_fromEulerYX,
      quatNormSq_fromEulerYX, one_mul]
  have hmat : mat3Mul (quatToM (relQuat w v)) (specWorldRot v.2.2 v.2.1) =
      specWorldRot w.2.2 w.2.1 := by
    rw [relQuat, quatToM_mul, quatToM_conj, quatToM_fromEulerYX,
      quatToM_fromEulerYX, mat3Mul_assoc, specWorldRot_orthogonal, mat3Mul_id]
  refine ⟨?_, hns, hmat⟩
  unfold camerasOfRun at hcam
  cases hg : generatePinholeImages render p refS panos with
  | error e =>
      rw [hg] at hcam
      exact absurd hcam (List.not_mem_nil cam)
  | ok out =>
      rw [hg] at hcam
      obtain ⟨aw, bw, cw⟩ := w
      cases hl : genLoop render p refS panos with
      | error e =>
          simp only [generatePinholeImages] at hg
          rw [hl] at hg
          exact Except.noConfusion hg
      | ok st =>
          simp only [generatePinholeImages] at hg
          rw [hl, hv] at hg
          have hout : (st.images, st.camParams,
              some [⟨st.rigParams.map (rigCameraEntry bw cw)⟩]) = out :=
            Except.ok.inj hg
          rw [← hout] at hcam
          have hcam' : cam ∈ st.rigParams.map (rigCameraEntry bw cw) := hcam
          have hrig := genLoop_ok_rigParams hl
          have hn1 : 1 ≤ panos.length := by
            cases panos with
            | nil => exact absurd rfl hpanos
            | cons x xs => simp
          have hnd' : (p.views.map Prod.fst).Nodup := by rw [hv]; exact hnd
          have hmap := buildRigParams_eq_map refS p.views hnd' panos.length hn1
          rw [hrig, hmap, hv] at hcam'
          obtain ⟨q, hq, rfl⟩ := List.mem_map.mp hcam'
          obtain ⟨u, hu, rfl⟩ := List.mem_map.mp hq
          have hvn : (rigCameraEntry bw cw (mkRigParam refS u)).viewName = u.1 := by
            cases hb : (mkRigParam refS u).refFlag
            · rw [rigCameraEntry, if_neg (by rw [hb]; exact Bool.false_ne_true)]
              rfl
            · rw [rigCameraEntry, if_pos (by rw [hb])]
              rfl
          rw [hvn] at hname
          have huv : u = v := List.inj_on_of_nodup_map hnd hu hmem hname
          subst huv
          have hf : (mkRigParam refS u).refFlag = false := hvr
          show (rigCameraEntry bw cw (mkRigParam refS u)).rotation = _
          rw [rigCameraEntry]
          rw [if_neg (by rw [hf]; exact Bool.false_ne_true)]
          rfl

/-- C2 witness: the catalog `[("a",0,0), ("b",10,20)]` with reference
`"a"`, one sampled frame, and the camera emitted for view `"b"`. -/
theorem rig_relative_rotation_witness :
    (rigCameraEntry 0 0 (mkRigParam "a" ("b", 10, 20))).rotation =
      some ((relQuat ("a", 0, 0) ("b", 10, 20)).w,
        (relQuat ("a", 0, 0) ("b", 10, 20)).x,
        (relQuat ("a", 0, 0) ("b", 10, 20)).y,
        (relQuat ("a", 0, 0) ("b", 10, 20)).z) ∧
    quatNormSq (relQuat ("a", 0, 0) ("b", 10, 20)) = 1 ∧
    mat3Mul (quatToM (relQuat ("a", 0, 0) ("b", 10, 20))) (specWorldRot 20 10) =
      specWorldRot 0 0 :=
  rig_relative_rotation (fun _ _ _ => Except.ok 0) twoViewParams "a" [0]
    ("a", 0, 0) ("b", 10, 20) [("b", 10, 20)] _
    rfl (by simp) (List.Mem.tail _ (List.Mem.head _)) (by decide)
    (by simp) (List.Mem.tail _ (List.Mem.head _)) rfl

/-- A one-view catalog used to exercise the render loop. -/
def oneViewParams : Params :=
  ⟨320, 320, 320, 320, 640, 640, 90, 90, 24, 4, [-35, 35], [("v", 0, 0)]⟩

/-- C7 counterexample: a failing render of frame 1 aborts the whole batch —
the run result is the propagated error, with no per-item error report and
no preserved results from frame 0. -/
theorem render_failure_aborts_cex :
    generatePinholeImages
        (fun pano _ _ =>
          if pano = 1 then Except.error (OmniErr.RenderFailure "bad frame")
          else Except.ok 0)
        oneViewParams "v" [0, 1] =
      Except.error (OmniErr.RenderFailure "bad frame") := rfl

/-- C7 amended: a single failed `(frame, view)` render aborts the whole
batch: the first render error becomes the result of
`_generate_pinhole_images` (no error report, no partial output), and a
batch whose very first item fails produces no work at all. -/
theorem render_failure_aborts (render : ℕ → ℝ → ℝ → Except OmniErr ℕ)
    (p : Params) (refS : String) (panos : List ℕ) (err : OmniErr)
    (v : String × ℝ × ℝ) (vs : List (String × ℝ × ℝ)) (f : ℕ) (fs : List ℕ)
    (e : OmniErr)
    (h : genLoop render p refS panos = Except.error err)
    (hv : p.views = v :: vs)
    (hr : render f v.2.1 v.2.2 = Except.error e) :
    generatePinholeImages render p refS panos = Except.error err ∧
    genLoop render p refS (f :: fs) = Except.error e := by
  constructor
  · simp only [generatePinholeImages]
    rw [h]
    rfl
  · simp only [genLoop, List.enum_cons, List.foldlM_cons, hv, genStep, hr]
    rfl

/-- C7 witness: the failing-at-frame-1 renderer over a one-view catalog. -/
theorem render_failure_aborts_witness :
    generatePinholeImages
        (fun pano _ _ =>
          if pano = 1 then Except.error (OmniErr.RenderFailure "bad frame")
          else Except.ok 0)
        oneViewParams "v" [0, 1] =
      Except.error (OmniErr.RenderFailure "bad frame") ∧
    genLoop
        (fun pano _ _ =>
          if pano = 1 then Except.error (OmniErr.RenderFailure "bad frame")
          else Except.ok 0)
        oneViewParams "v" (1 :: []) =
      Except.error (OmniErr.RenderFailure "bad frame") :=
  render_failure_aborts _ oneViewParams "v" [0, 1] _ ("v", 0, 0) [] 1 []
    (OmniErr.RenderFailure "bad frame") rfl rfl rfl

/-- A one-view catalog whose view name differs from the default reference
sensor name. -/
def frontParams : Params :=
  ⟨320, 320, 320, 320, 640, 640, 90, 90, 24, 4, [-35, 35], [("front", 0, 0)]⟩

/-- C1 evaluated at the failing input: a default-constructed processor
(`ref_sensor = "pitch_35_yaw_0"`) whose parameters are then replaced via
`set_params` with the catalog `{"front": (0, 0)}`; the run over one sampled
frame emits a rig with zero reference entries, whose single camera carries
a rotation. -/
theorem stale_ref_sensor_code_bug :
    (camerasOfPV (fun _ _ _ => Except.ok 0)
        (set_params (initProcessor none) frontParams) true
        (fun i => if i = 0 then some 0 else none) 1).countP
      (fun c => c.refFlag) = 0 ∧
    (camerasOfPV (fun _ _ _ => Except.ok 0)
        (set_params (initProcessor none) frontParams) true
        (fun i => if i = 0 then some 0 else none) 1).length = 1 ∧
    (camerasOfPV (fun _ _ _ => Except.ok 0)
        (set_params (initProcessor none) frontParams) true
        (fun i => if i = 0 then some 0 else none) 1).all
      (fun c => c.rotation.isSome) = true :=
  ⟨rfl, rfl, rfl⟩

end OmniSfm
